import Mathlib

/-!
Verification of the filter/pagination core of the apartment-listing
application, as a shallow embedding in Lean 4.

The embedded components are:
* the API response cache layer (source: src/composables/useApiCache.ts);
* the filter store: validation, sanitization, updates
  (source: src/stores/filterStore.ts);
* the URL filter synchronization (source: src/unnamed/part_002,
  the useUrlFilters composable);
* the apartment list store: loadApartments / loadMore
  (source: src/unnamed/part_007, the apartment Pinia store).

Modelling conventions:
* JavaScript numbers are modelled as rationals (Rat); integer-valued page
  counters as Nat.  JavaScript number-to-string followed by Number() is the
  identity on numbers, so URL query values are carried as numbers directly.
* JavaScript values whose truthiness the code inspects are modelled by the
  inductive JSVal with its truthiness predicate.
* Asynchronous fetches are modelled by passing the settled outcome of the
  fetch (Except with an error message) as an explicit argument to the
  state-transforming function that awaits it.
* Mutable store state is passed explicitly; actions return the new state
  together with any additional results (validation booleans, persistence
  flags).
-/

set_option autoImplicit false

namespace AptListing

/-- Model of a JavaScript runtime value as far as the cache layer inspects
it: the scalar values (numbers, strings, booleans, null).  Every cached
payload and fetch-option value this development reasons about is scalar. -/
inductive JSVal where
  | num (q : Rat)
  | str (s : String)
  | bool (b : Bool)
  | null
deriving DecidableEq, Repr, Inhabited

/-- JavaScript truthiness of a JSVal (`if (v)`).  `0`, the empty string,
`false` and `null` are falsy. -/
def JSVal.truthy : JSVal → Bool
  | .num q => q != 0
  | .str s => s != ""
  | .bool b => b
  | .null => false

/-- Truthiness of an `Option JSVal` as produced by `getFromCache`
(`null` for a miss): `none` is falsy. -/
def optTruthy : Option JSVal → Bool
  | none => false
  | some v => v.truthy

/-- Rendering of a number by JavaScript's Number.prototype.toString,
restricted to the values that occur here: integers print without a decimal
point, other rationals via their reduced fraction notation (the exact
decimal rendering is irrelevant to every property below; only injectivity
on the used values matters). -/
def numToString (q : Rat) : String :=
  if q.den = 1 then toString q.num else toString q

/-- JSON.stringify of a scalar JSVal (string escaping is omitted: no
string used anywhere in this development contains a character JSON would
escape). -/
def jsonStringifyVal : JSVal → String
  | .num q => numToString q
  | .str s => "\"" ++ s ++ "\""
  | .bool true => "true"
  | .bool false => "false"
  | .null => "null"

/-- JSON.stringify of a string-keyed record, in property insertion order
(JSON.stringify enumerates own string keys in insertion order). -/
def jsonStringifyRecord (params : List (String × JSVal)) : String :=
  "\x7b" ++
    String.intercalate ","
      (params.map (fun p => "\"" ++ p.1 ++ "\":" ++ jsonStringifyVal p.2)) ++
    "\x7d"

/-- The base64 alphabet used by btoa. -/
def base64Alphabet : List Char :=
  "ABCDEFGHIJKLMNOPQRSTUVWXYZabcdefghijklmnopqrstuvwxyz0123456789+/".toList

/-- The base64 digit for a 6-bit value. -/
def base64Digit (n : Nat) : Char :=
  base64Alphabet.getD n '='

/-- base64-encode a byte list (the core of btoa), with `=` padding. -/
def btoaBytes : List Nat → List Char
  | [] => []
  | [b0] =>
      [base64Digit (b0 / 4), base64Digit (b0 % 4 * 16), '=', '=']
  | [b0, b1] =>
      [base64Digit (b0 / 4), base64Digit (b0 % 4 * 16 + b1 / 16),
       base64Digit (b1 % 16 * 4), '=']
  | b0 :: b1 :: b2 :: rest =>
      base64Digit (b0 / 4) :: base64Digit (b0 % 4 * 16 + b1 / 16) ::
      base64Digit (b1 % 16 * 4 + b2 / 64) :: base64Digit (b2 % 64) ::
      btoaBytes rest

/-- The browser's btoa: base64 encoding of the code points of a Latin-1
string (all strings passed to it here are ASCII). -/
def btoa (s : String) : String :=
  String.mk (btoaBytes (s.toList.map Char.toNat))

/-- Source: useApiCache.ts, generateCacheKey.
Builds the cache key from the URL and the (optional) parameter record:
the params are serialized with JSON.stringify (insertion order preserved,
no key normalization) and base64-encoded. -/
def generateCacheKey (url : String) (params : Option (List (String × JSVal))) :
    String :=
  let paramString := match params with
    | some p => jsonStringifyRecord p
    | none => ""
  "api_cache_" ++ url ++ "_" ++ btoa paramString

/-- Source: useApiCache.ts, interface CacheEntry.  Timestamps and TTLs in
milliseconds. -/
structure CacheEntry where
  data : JSVal
  timestamp : Int
  ttl : Int
deriving DecidableEq, Repr

/-- The mutable storage the cache layer touches: the module-level in-memory
Map and the browser's localStorage, both modelled as association lists
keyed by the cache key (first binding wins on lookup, matching Map.get and
localStorage.getItem).  localStorage holds the JSON serialization of the
entry; JSON.parse(JSON.stringify(e)) is the identity on these plain
records, so entries are stored directly. -/
structure CacheState where
  memory : List (String × CacheEntry)
  localStorage : List (String × CacheEntry)
deriving DecidableEq, Repr

/-- Lookup in an association list (Map.get / localStorage.getItem). -/
def assocGet (l : List (String × CacheEntry)) (key : String) :
    Option CacheEntry :=
  (l.find? (fun p => p.1 = key)).map (·.2)

/-- Insert-or-replace in an association list (Map.set / setItem). -/
def assocSet (l : List (String × CacheEntry)) (key : String)
    (e : CacheEntry) : List (String × CacheEntry) :=
  (key, e) :: l.filter (fun p => p.1 ≠ key)

/-- Remove a key from an association list (Map.delete / removeItem). -/
def assocRemove (l : List (String × CacheEntry)) (key : String) :
    List (String × CacheEntry) :=
  l.filter (fun p => p.1 ≠ key)

/-- Source: useApiCache.ts, isCacheValid: `Date.now() - entry.timestamp <
entry.ttl`, with the current time passed explicitly. -/
def isCacheValid (now : Int) (entry : CacheEntry) : Bool :=
  now - entry.timestamp < entry.ttl

/-- The localStorage half of getFromCache, reached when the memory map has
no valid entry: a valid stored entry is promoted into memory and returned,
an expired stored entry is removed. -/
def getFromCacheLocal (st : CacheState) (now : Int) (key : String)
    (useLocalStorage : Bool) : CacheState × Option JSVal :=
  if useLocalStorage then
    match assocGet st.localStorage key with
    | some entry =>
      if isCacheValid now entry then
        ({ st with memory := assocSet st.memory key entry }, some entry.data)
      else
        ({ st with localStorage := assocRemove st.localStorage key }, none)
    | none => (st, none)
  else
    (st, none)

/-- Source: useApiCache.ts, getFromCache.  Checks the in-memory map first;
on a valid hit returns its data; otherwise falls through to the
localStorage path.  Returns the (possibly updated) storage state together
with the data or null. -/
def getFromCache (st : CacheState) (now : Int) (key : String)
    (useLocalStorage : Bool) : CacheState × Option JSVal :=
  match assocGet st.memory key with
  | some memoryEntry =>
    if isCacheValid now memoryEntry then
      (st, some memoryEntry.data)
    else
      getFromCacheLocal st now key useLocalStorage
  | none => getFromCacheLocal st now key useLocalStorage

/-- Source: useApiCache.ts, setCache.  Default TTL five minutes; always
writes the in-memory map, and localStorage as well when requested. -/
def setCache (st : CacheState) (now : Int) (key : String) (data : JSVal)
    (ttl : Option Int) (useLocalStorage : Bool) : CacheState :=
  let entry : CacheEntry :=
    { data := data, timestamp := now, ttl := ttl.getD (5 * 60 * 1000) }
  let st := { st with memory := assocSet st.memory key entry }
  if useLocalStorage then
    { st with localStorage := assocSet st.localStorage key entry }
  else
    st

deriving instance DecidableEq for Except

deriving instance Repr for Except

/-- Outcome of one cachedFetch run: the updated storage state, the settled
result (fulfilled data or rejection message), and whether the network
fetch was performed. -/
structure CachedFetchRun where
  state : CacheState
  result : Except String JSVal
  fetchPerformed : Bool
deriving DecidableEq, Repr

/-- Source: useApiCache.ts, cachedFetch.  The cache key is derived from the
URL and the residual fetch options.  A truthy cached value is returned
without fetching (the hit test is `if (cached)`, i.e. truthiness of the
data, not presence of an entry).  Otherwise the fetch is performed: on
success the response is cached and returned; on failure a stale in-memory
entry for the key (expired or not) is returned if present, else the
rejection propagates.  The settled outcome of the network fetch is the
`fetchResult` argument. -/
def cachedFetch (st : CacheState) (now : Int) (url : String)
    (fetchOptions : List (String × JSVal)) (cacheTtl : Option Int)
    (useLocalStorage : Bool) (fetchResult : Except String JSVal) :
    CachedFetchRun :=
  let cacheKey := generateCacheKey url (some fetchOptions)
  let (st, cached) := getFromCache st now cacheKey useLocalStorage
  if optTruthy cached then
    { state := st, result := .ok (cached.getD .null), fetchPerformed := false }
  else
    match fetchResult with
    | .ok response =>
      { state := setCache st now cacheKey response cacheTtl useLocalStorage,
        result := .ok response, fetchPerformed := true }
    | .error e =>
      match assocGet st.memory cacheKey with
      | some staleCache =>
        { state := st, result := .ok staleCache.data, fetchPerformed := true }
      | none =>
        { state := st, result := .error e, fetchPerformed := true }

/-! ### Filter store (src/stores/filterStore.ts) -/

/-- Source: types/index.ts, FilterParams.  Ranges are `[min, max]` pairs;
rooms is the list of selected room counts. -/
structure FilterParams where
  priceRange : Rat × Rat
  areaRange : Rat × Rat
  rooms : List Rat
  floors : Rat × Rat
deriving DecidableEq, Repr

/-- Source: types/index.ts, FilterMetadata: the server-declared bounds. -/
structure FilterMetadata where
  priceRange : Rat × Rat
  areaRange : Rat × Rat
  roomsAvailable : List Rat
  floorsRange : Rat × Rat
deriving DecidableEq, Repr

/-- Identity of the human-readable error message the filter store assigns,
with the values interpolated into it (the exact rendered text is never
inspected by any code path, so the formatting is not modelled). -/
inductive ErrorMsg where
  | priceBounds (metaMin metaMax : Rat)
  | areaBounds (metaMin metaMax : Rat)
  | invalidRooms (invalid : List Rat)
  | floorsBounds (metaMin metaMax : Rat)
  | fallback (s : String)
deriving DecidableEq, Repr

/-- Source: types/index.ts, FilterState (the filter Pinia store state). -/
structure FilterState where
  filters : FilterParams
  metadata : Option FilterMetadata
  loading : Bool
  error : Option ErrorMsg
  isActive : Bool
deriving DecidableEq, Repr

/-- Source: types/index.ts, ValidationError. -/
structure ValidationError where
  field : String
  message : ErrorMsg
  code : String
deriving DecidableEq, Repr

/-- Source: types/index.ts, ValidationResult. -/
structure ValidationResult where
  isValid : Bool
  errors : List ValidationError
deriving DecidableEq, Repr

/-- Source: filterStore.ts, the hasActiveFilters getter: false without
metadata, else true iff any range differs from its metadata bound or any
room is selected. -/
def hasActiveFilters (s : FilterState) : Bool :=
  match s.metadata with
  | none => false
  | some metadata =>
    let priceChanged := s.filters.priceRange.1 != metadata.priceRange.1 ||
      s.filters.priceRange.2 != metadata.priceRange.2
    let areaChanged := s.filters.areaRange.1 != metadata.areaRange.1 ||
      s.filters.areaRange.2 != metadata.areaRange.2
    let roomsSelected := s.filters.rooms.length > 0
    let floorsChanged := s.filters.floors.1 != metadata.floorsRange.1 ||
      s.filters.floors.2 != metadata.floorsRange.2
    priceChanged || areaChanged || roomsSelected || floorsChanged

/-- The failure condition shared verbatim by validatePriceRange,
validateAreaRange and validateFloorsRange in filterStore.ts:
`min < metaMin || max > metaMax || min > max`. -/
def rangeViolates (bounds : Rat × Rat) (range : Rat × Rat) : Bool :=
  range.1 < bounds.1 || range.2 > bounds.2 || range.1 > range.2

/-- The `invalidRooms` list computed inside validateRooms: the requested
rooms absent from roomsAvailable. -/
def invalidRoomsOf (available : List Rat) (rooms : List Rat) : List Rat :=
  rooms.filter (fun room => !available.contains room)

/-- Source: filterStore.ts, validatePriceRange.  Returns the state (the
error field is assigned on failure) and the boolean verdict; `false`
without any error assignment when metadata is null. -/
def validatePriceRange (s : FilterState) (range : Rat × Rat) :
    FilterState × Bool :=
  match s.metadata with
  | none => (s, false)
  | some metadata =>
    if rangeViolates metadata.priceRange range then
      ({ s with
          error := some (.priceBounds metadata.priceRange.1 metadata.priceRange.2) },
       false)
    else
      (s, true)

/-- Source: filterStore.ts, validateAreaRange. -/
def validateAreaRange (s : FilterState) (range : Rat × Rat) :
    FilterState × Bool :=
  match s.metadata with
  | none => (s, false)
  | some metadata =>
    if rangeViolates metadata.areaRange range then
      ({ s with
          error := some (.areaBounds metadata.areaRange.1 metadata.areaRange.2) },
       false)
    else
      (s, true)

/-- Source: filterStore.ts, validateRooms: rejects iff some requested room
is absent from roomsAvailable. -/
def validateRooms (s : FilterState) (rooms : List Rat) :
    FilterState × Bool :=
  match s.metadata with
  | none => (s, false)
  | some metadata =>
    let invalidRooms := invalidRoomsOf metadata.roomsAvailable rooms
    if invalidRooms.length > 0 then
      ({ s with error := some (.invalidRooms invalidRooms) }, false)
    else
      (s, true)

/-- Source: filterStore.ts, validateFloorsRange. -/
def validateFloorsRange (s : FilterState) (range : Rat × Rat) :
    FilterState × Bool :=
  match s.metadata with
  | none => (s, false)
  | some metadata =>
    if rangeViolates metadata.floorsRange range then
      ({ s with
          error := some (.floorsBounds metadata.floorsRange.1 metadata.floorsRange.2) },
       false)
    else
      (s, true)

/-- Source: filterStore.ts, updatePriceRange.  On a passing validation the
range is adopted, isActive recomputed, the error cleared and the filters
persisted (the boolean component records that saveFiltersToStorage ran);
on a failing validation nothing but the validator's error assignment
happens. -/
def updatePriceRange (s : FilterState) (range : Rat × Rat) :
    FilterState × Bool :=
  let v := validatePriceRange s range
  if v.2 then
    let s1 := { v.1 with filters := { v.1.filters with priceRange := range } }
    ({ s1 with isActive := hasActiveFilters s1, error := none }, true)
  else
    (v.1, false)

/-- Source: filterStore.ts, updateAreaRange. -/
def updateAreaRange (s : FilterState) (range : Rat × Rat) :
    FilterState × Bool :=
  let v := validateAreaRange s range
  if v.2 then
    let s1 := { v.1 with filters := { v.1.filters with areaRange := range } }
    ({ s1 with isActive := hasActiveFilters s1, error := none }, true)
  else
    (v.1, false)

/-- Source: filterStore.ts, updateRooms. -/
def updateRooms (s : FilterState) (rooms : List Rat) :
    FilterState × Bool :=
  let v := validateRooms s rooms
  if v.2 then
    let s1 := { v.1 with filters := { v.1.filters with rooms := rooms } }
    ({ s1 with isActive := hasActiveFilters s1, error := none }, true)
  else
    (v.1, false)

/-- Source: filterStore.ts, updateFloorsRange. -/
def updateFloorsRange (s : FilterState) (range : Rat × Rat) :
    FilterState × Bool :=
  let v := validateFloorsRange s range
  if v.2 then
    let s1 := { v.1 with filters := { v.1.filters with floors := range } }
    ({ s1 with isActive := hasActiveFilters s1, error := none }, true)
  else
    (v.1, false)

/-- Source: filterStore.ts, toggleRoom.  Removes the first occurrence of
the room count if present (indexOf + splice), appends it otherwise, then
sorts ascending (`sort((a, b) => a - b)`, modelled by the stable insertion
sort), recomputes isActive and persists.  Note: no validator is consulted
and the error field is not touched. -/
def toggleRoom (s : FilterState) (roomCount : Rat) : FilterState × Bool :=
  let rooms :=
    if s.filters.rooms.contains roomCount then
      s.filters.rooms.erase roomCount
    else
      s.filters.rooms ++ [roomCount]
  let rooms := rooms.insertionSort (· ≤ ·)
  let s1 := { s with filters := { s.filters with rooms := rooms } }
  ({ s1 with isActive := hasActiveFilters s1 }, true)

/-- Source: filterStore.ts, validateAllFilters.  Runs the four validators
against the current filters, collecting one ValidationError per failing
dimension with a fixed per-dimension code; the message is the error the
validator just assigned (or a fixed fallback).  The state is threaded
because the validators assign the store error field. -/
def validateAllFilters (s : FilterState) : FilterState × ValidationResult :=
  let errors : List ValidationError := []
  let vp := validatePriceRange s s.filters.priceRange
  let errors := if vp.2 then errors else
    errors ++ [{ field := "priceRange",
                 message := vp.1.error.getD (.fallback "Invalid price range"),
                 code := "INVALID_PRICE_RANGE" }]
  let va := validateAreaRange vp.1 vp.1.filters.areaRange
  let errors := if va.2 then errors else
    errors ++ [{ field := "areaRange",
                 message := va.1.error.getD (.fallback "Invalid area range"),
                 code := "INVALID_AREA_RANGE" }]
  let vr := validateRooms va.1 va.1.filters.rooms
  let errors := if vr.2 then errors else
    errors ++ [{ field := "rooms",
                 message := vr.1.error.getD (.fallback "Invalid rooms selection"),
                 code := "INVALID_ROOMS" }]
  let vf := validateFloorsRange vr.1 vr.1.filters.floors
  let errors := if vf.2 then errors else
    errors ++ [{ field := "floors",
                 message := vf.1.error.getD (.fallback "Invalid floors range"),
                 code := "INVALID_FLOORS_RANGE" }]
  (vf.1, { isValid := errors.isEmpty, errors := errors })

/-- Partial FilterParams as restored from localStorage or parsed from the
URL: each dimension may be absent. -/
structure PartialFilters where
  priceRange : Option (Rat × Rat) := none
  areaRange : Option (Rat × Rat) := none
  rooms : Option (List Rat) := none
  floors : Option (Rat × Rat) := none
deriving DecidableEq, Repr

/-- One numeric-range block of validateSavedFilters (the price, area and
floors blocks are verbatim copies of each other in the source): the saved
range is adopted only when it is present (with both members numbers, which
the typed model guarantees), lies entirely within the metadata bounds and
is non-inverted; otherwise the default — the full metadata range the
function started from — is kept. -/
def adoptSavedRange (bounds : Rat × Rat) (saved : Option (Rat × Rat)) :
    Rat × Rat :=
  match saved with
  | some range =>
    if bounds.1 ≤ range.1 ∧ range.2 ≤ bounds.2 ∧ range.1 ≤ range.2 then range
    else bounds
  | none => bounds

/-- Source: filterStore.ts, validateSavedFilters.  The source initializes
validatedFilters to the metadata-derived defaults and then runs one
guarded block per dimension, each assigning only its own field; the net
result is rendered fieldwise here.  Saved rooms, when present, are
filtered to the values occurring in roomsAvailable (silently dropping the
rest); with no saved rooms the default `[]` is kept. -/
def validateSavedFilters (saved : PartialFilters)
    (metadata : FilterMetadata) : FilterParams :=
  { priceRange := adoptSavedRange metadata.priceRange saved.priceRange
    areaRange := adoptSavedRange metadata.areaRange saved.areaRange
    rooms :=
      match saved.rooms with
      | some rooms =>
        rooms.filter (fun room => metadata.roomsAvailable.contains room)
      | none => []
    floors := adoptSavedRange metadata.floorsRange saved.floors }

/-- Modelled from the spec's words, for comparison with the source's
validateSavedFilters (claim C3): a sanitization that clamps each
out-of-range numeric bound of a present range to the corresponding
metadata min or max (and keeps the metadata default for an absent
dimension), with rooms filtered to roomsAvailable. -/
def clampSavedFiltersSpec (saved : PartialFilters)
    (metadata : FilterMetadata) : FilterParams :=
  let clampTo (bounds : Rat × Rat) (range : Option (Rat × Rat)) : Rat × Rat :=
    match range with
    | some r => (max bounds.1 (min bounds.2 r.1), min bounds.2 (max bounds.1 r.2))
    | none => bounds
  { priceRange := clampTo metadata.priceRange saved.priceRange
    areaRange := clampTo metadata.areaRange saved.areaRange
    rooms := (saved.rooms.getD []).filter
      (fun room => metadata.roomsAvailable.contains room)
    floors := clampTo metadata.floorsRange saved.floors }

/-! ### URL filter synchronization (src/unnamed/part_002, useUrlFilters) -/

/-- The filter-relevant slice of the route query.  Values are carried as
numbers: JavaScript's number-to-string (what updateUrlWithFilters writes)
composed with Number() (what parseFiltersFromUrl reads) is the identity,
numeric strings are never empty (so present implies truthy), and Number()
of such a string is never NaN.  `rooms` holds the repeated-key values; the
empty list models an absent key. -/
structure UrlQuery where
  priceMin : Option Rat := none
  priceMax : Option Rat := none
  areaMin : Option Rat := none
  areaMax : Option Rat := none
  rooms : List Rat := []
  floorMin : Option Rat := none
  floorMax : Option Rat := none
deriving DecidableEq, Repr

/-- `Object.keys(query).length === 0` over the filter-relevant query. -/
def UrlQuery.noKeys (query : UrlQuery) : Bool :=
  query.priceMin.isNone && query.priceMax.isNone &&
  query.areaMin.isNone && query.areaMax.isNone &&
  query.rooms.isEmpty &&
  query.floorMin.isNone && query.floorMax.isNone

/-- `Object.keys(filters).length > 0` for the accumulated partial result
of parseFiltersFromUrl. -/
def PartialFilters.hasKeys (filters : PartialFilters) : Bool :=
  filters.priceRange.isSome || filters.areaRange.isSome ||
  filters.rooms.isSome || filters.floors.isSome

/-- Source: part_002, parseFiltersFromUrl.  Each min/max pair is adopted
only when both members are present and min ≤ max; rooms are filtered to
positive values and sorted ascending, and adopted only when some survive.
Returns null when the query is empty or nothing valid was found. -/
def parseFiltersFromUrl (query : UrlQuery) : Option PartialFilters :=
  if query.noKeys then none
  else
    let filters : PartialFilters := {}
    let filters := match query.priceMin, query.priceMax with
      | some priceMin, some priceMax =>
        if priceMin ≤ priceMax then
          { filters with priceRange := some (priceMin, priceMax) }
        else filters
      | _, _ => filters
    let filters := match query.areaMin, query.areaMax with
      | some areaMin, some areaMax =>
        if areaMin ≤ areaMax then
          { filters with areaRange := some (areaMin, areaMax) }
        else filters
      | _, _ => filters
    let filters :=
      if query.rooms.isEmpty then filters
      else
        let rooms := (query.rooms.filter (fun r => 0 < r)).insertionSort (· ≤ ·)
        if rooms.length > 0 then { filters with rooms := some rooms }
        else filters
    let filters := match query.floorMin, query.floorMax with
      | some floorMin, some floorMax =>
        if floorMin ≤ floorMax then
          { filters with floors := some (floorMin, floorMax) }
        else filters
      | _, _ => filters
    if filters.hasKeys then some filters else none

/-- Source: part_002, updateUrlWithFilters.  Emits a min/max pair only for
a range differing (in either bound) from the default, emits rooms exactly
when non-empty, and leaves every other dimension out of the query
entirely. -/
def updateUrlWithFilters (filters defaultFilters : FilterParams) : UrlQuery :=
  let query : UrlQuery := {}
  let query :=
    if filters.priceRange.1 != defaultFilters.priceRange.1 ||
        filters.priceRange.2 != defaultFilters.priceRange.2 then
      { query with priceMin := some filters.priceRange.1
                   priceMax := some filters.priceRange.2 }
    else query
  let query :=
    if filters.areaRange.1 != defaultFilters.areaRange.1 ||
        filters.areaRange.2 != defaultFilters.areaRange.2 then
      { query with areaMin := some filters.areaRange.1
                   areaMax := some filters.areaRange.2 }
    else query
  let query :=
    if filters.rooms.length > 0 then { query with rooms := filters.rooms }
    else query
  let query :=
    if filters.floors.1 != defaultFilters.floors.1 ||
        filters.floors.2 != defaultFilters.floors.2 then
      { query with floorMin := some filters.floors.1
                   floorMax := some filters.floors.2 }
    else query
  query

/-! ### Apartment list store (src/unnamed/part_007) -/

/-- Source: types/index.ts, Apartment. -/
structure Apartment where
  id : String
  title : String
  price : Rat
  area : Rat
  rooms : Rat
  floor : Rat
  totalFloors : Rat
  address : String
  images : List String
  description : Option String := none
  features : List String
deriving DecidableEq, Repr

/-- Source: types/index.ts, the meta part of ApartmentListResponse.  The
store guards `if (response.meta.filters)`, so filters is optional here. -/
structure ResponseMeta where
  total : Nat
  filters : Option FilterMetadata := none
deriving DecidableEq, Repr

/-- Source: types/index.ts, ApartmentListResponse. -/
structure ApartmentListResponse where
  apartments : List Apartment
  meta : ResponseMeta
deriving DecidableEq, Repr

/-- Source: types/index.ts, PaginationParams. -/
structure PaginationParams where
  page : Nat
  limit : Nat
  total : Nat
deriving DecidableEq, Repr

/-- Source: part_007, the apartment store state (ApartmentState plus the
metadata field the store adds). -/
structure ApartmentState where
  apartments : List Apartment
  loading : Bool
  error : Option String
  pagination : PaginationParams
  hasMore : Bool
  metadata : Option FilterMetadata
deriving DecidableEq, Repr

/-- Source: part_007, the canLoadMore getter. -/
def canLoadMore (s : ApartmentState) : Bool :=
  s.hasMore && !s.loading

/-- Source: part_007, loadApartments.  The settled outcome of the cached,
timed fetch is the `fetchResult` argument (the query-string construction
from pagination and filters has no effect on store state and is not
modelled).  Success: replace or append the list, update total, recompute
hasMore from the updated list, adopt response metadata when present.
Failure (the catch block): record the message, clear the list only on a
reset load.  The finally block clears the loading flag on both paths. -/
def loadApartments (s : ApartmentState) (filters : Option FilterParams)
    (reset : Bool) (fetchResult : Except String ApartmentListResponse) :
    ApartmentState :=
  let _ := filters
  let s := { s with loading := true, error := none }
  let s :=
    if reset then { s with pagination := { s.pagination with page := 1 } }
    else s
  match fetchResult with
  | .ok response =>
    let s :=
      if reset then { s with apartments := response.apartments }
      else { s with apartments := s.apartments ++ response.apartments }
    let s := { s with
        pagination := { s.pagination with total := response.meta.total }
        hasMore := s.apartments.length < response.meta.total }
    let s := match response.meta.filters with
      | some f => { s with metadata := some f }
      | none => s
    { s with loading := false }
  | .error msg =>
    let s := { s with error := some msg }
    let s := if reset then { s with apartments := [] } else s
    { s with loading := false }

/-- Source: part_007, loadMore.  No-op when canLoadMore is false;
otherwise increments the page and awaits loadApartments with reset =
false.  The source wraps that await in a try/catch that decrements the
page again and rethrows if it rejects; loadApartments settles by
fulfilling on every path (its whole body sits inside its own
try/catch/finally and the catch does not rethrow), so the loadMore catch
branch is unreachable and the model returns the loadApartments result
directly. -/
def loadMore (s : ApartmentState)
    (fetchResult : Except String ApartmentListResponse) : ApartmentState :=
  if !canLoadMore s then s
  else
    loadApartments
      { s with pagination := { s.pagination with page := s.pagination.page + 1 } }
      none false fetchResult

/-! ### Theorems -/

/-- C6: for every loadApartments call whose fetch fails, the error message
is recorded in the store's error field, the apartments list becomes empty
when the call was a reset load and is left exactly as before when it was a
load-more continuation, and the loading flag is cleared. -/
theorem c6_loadApartments_failure (s : ApartmentState)
    (filters : Option FilterParams) (reset : Bool) (msg : String) :
    (loadApartments s filters reset (.error msg)).error = some msg ∧
    (loadApartments s filters reset (.error msg)).apartments =
      (if reset then [] else s.apartments) ∧
    (loadApartments s filters reset (.error msg)).loading = false := by
  cases reset <;> simp [loadApartments]

/-- The concrete failing input for claim C1: a store on page 1 with more
results available and no load in flight, whose next fetch fails. -/
def c1FailingState : ApartmentState :=
  { apartments := []
    loading := false
    error := none
    pagination := { page := 1, limit := 20, total := 0 }
    hasMore := true
    metadata := none }

/-- C1 (code-bug evaluation): after loadMore on the failing input settles,
pagination.page is 2, not its pre-call value 1 — the increment is not
rolled back, because loadApartments swallows the rejection so loadMore's
revert-and-rethrow catch never runs; the recorded error shows the fetch
did fail. -/
theorem c1_failed_loadMore_keeps_incremented_page :
    (loadMore c1FailingState (.error "network error")).pagination.page = 2 ∧
    (loadMore c1FailingState (.error "network error")).error =
      some "network error" := by
  constructor <;> rfl

/-- C9: when the filter store has no metadata yet, each of the four update
actions returns the state entirely unchanged (filters, isActive and error
included) and persists nothing — the validators return false before any
error message is assigned. -/
theorem c9_updates_silent_without_metadata (s : FilterState)
    (h : s.metadata = none) (priceRange areaRange floorsRange : Rat × Rat)
    (rooms : List Rat) :
    updatePriceRange s priceRange = (s, false) ∧
    updateAreaRange s areaRange = (s, false) ∧
    updateRooms s rooms = (s, false) ∧
    updateFloorsRange s floorsRange = (s, false) := by
  simp [updatePriceRange, updateAreaRange, updateRooms, updateFloorsRange,
    validatePriceRange, validateAreaRange, validateRooms, validateFloorsRange, h]

/-- Closed witness for c9_updates_silent_without_metadata at a concrete
uninitialized store. -/
theorem c9_updates_silent_without_metadata_witness :
    updatePriceRange
      { filters := { priceRange := (3200000, 25000000)
                     areaRange := (51/2, 150)
                     rooms := []
                     floors := (1, 20) }
        metadata := none, loading := false, error := none, isActive := false }
      (1, 2) =
      ({ filters := { priceRange := (3200000, 25000000)
                      areaRange := (51/2, 150)
                      rooms := []
                      floors := (1, 20) }
         metadata := none, loading := false, error := none, isActive := false },
       false) :=
  (c9_updates_silent_without_metadata _ rfl (1, 2) (3, 4) (5, 6) [1]).1

/-- C10: a valid (unexpired) in-memory cache entry whose data is falsy
(0, empty string, false or null) is treated as a miss: cachedFetch still
performs the network fetch, because the hit test checks truthiness of the
returned data rather than presence of an entry. -/
theorem c10_falsy_cached_data_refetches (st : CacheState) (now : Int)
    (url : String) (fetchOptions : List (String × JSVal))
    (cacheTtl : Option Int) (useLocalStorage : Bool)
    (fetchResult : Except String JSVal) (entry : CacheEntry)
    (hmem : assocGet st.memory (generateCacheKey url (some fetchOptions)) =
      some entry)
    (hvalid : isCacheValid now entry = true)
    (hfalsy : entry.data.truthy = false) :
    (cachedFetch st now url fetchOptions cacheTtl useLocalStorage
      fetchResult).fetchPerformed = true := by
  cases fetchResult <;>
    simp [cachedFetch, getFromCache, hmem, hvalid, optTruthy, hfalsy]

/-- Closed witness for c10_falsy_cached_data_refetches: a fresh entry
caching the number 0 still leads to a network fetch. -/
theorem c10_falsy_cached_data_refetches_witness :
    (cachedFetch
      { memory := [(generateCacheKey "/api/apartments" (some []),
                    { data := JSVal.num 0, timestamp := 0, ttl := 1000 })]
        localStorage := [] }
      500 "/api/apartments" [] none false (.ok (JSVal.num 7))).fetchPerformed
      = true :=
  c10_falsy_cached_data_refetches _ 500 _ _ none false _
    { data := JSVal.num 0, timestamp := 0, ttl := 1000 }
    (by decide) (by decide) (by decide)

/-- C5: when cachedFetch reaches the network and the fetch rejects, a
surviving in-memory entry for the derived key — written by an earlier
setCache and here already expired, with no durable copy — is returned as
stale fallback data instead of the rejection; with no in-memory entry the
rejection propagates to the caller. -/
theorem c5_cachedFetch_stale_fallback (st : CacheState) (now : Int)
    (url : String) (fetchOptions : List (String × JSVal))
    (cacheTtl : Option Int) (useLocalStorage : Bool) (msg : String)
    (entry : CacheEntry)
    (hls : assocGet st.localStorage (generateCacheKey url (some fetchOptions)) =
      none) :
    (assocGet st.memory (generateCacheKey url (some fetchOptions)) =
        some entry →
      isCacheValid now entry = false →
      (cachedFetch st now url fetchOptions cacheTtl useLocalStorage
        (.error msg)).result = .ok entry.data ∧
      (cachedFetch st now url fetchOptions cacheTtl useLocalStorage
        (.error msg)).fetchPerformed = true) ∧
    (assocGet st.memory (generateCacheKey url (some fetchOptions)) = none →
      (cachedFetch st now url fetchOptions cacheTtl useLocalStorage
        (.error msg)).result = .error msg) := by
  constructor
  · intro hmem hexp
    simp [cachedFetch, getFromCache, getFromCacheLocal, hmem, hexp, hls,
      optTruthy]
  · intro hmem
    simp [cachedFetch, getFromCache, getFromCacheLocal, hmem, hls, optTruthy]

/-- Closed witness for c5_cachedFetch_stale_fallback: an expired entry for
the key keeps the stale data available under a failed fetch. -/
theorem c5_cachedFetch_stale_fallback_witness :
    (cachedFetch
      { memory := [(generateCacheKey "/api/apartments" (some []),
                    { data := JSVal.num 42, timestamp := 0, ttl := 100 })]
        localStorage := [] }
      500 "/api/apartments" [] none true (.error "network down")).result =
      .ok (JSVal.num 42) :=
  ((c5_cachedFetch_stale_fallback _ 500 _ _ none true "network down"
      { data := JSVal.num 42, timestamp := 0, ttl := 100 }
      (by decide)).1
    (by decide) (by decide)).1

/-- C2 counterexample: two parameter records holding the same key-value
pairs in different insertion orders (a permutation of one another) hash to
different cache keys, because generateCacheKey serializes with
JSON.stringify in insertion order and never normalizes the key set. -/
theorem c2_key_order_changes_cache_key :
    [("a", JSVal.str "1"), ("b", JSVal.str "2")].Perm
      [("b", JSVal.str "2"), ("a", JSVal.str "1")] ∧
    generateCacheKey "/api/apartments"
        (some [("a", JSVal.str "1"), ("b", JSVal.str "2")]) ≠
      generateCacheKey "/api/apartments"
        (some [("b", JSVal.str "2"), ("a", JSVal.str "1")]) := by
  constructor
  · decide
  · decide

/-- C2 amended: the cache key is a deterministic function of the endpoint
URL and the insertion-ordered JSON serialization of the parameter record —
parameter records with equal serializations (in particular, identical
key-value sequences) always yield the identical key, but records that
differ only in key insertion order may not. -/
theorem c2_generateCacheKey_deterministic (url : String)
    (p1 p2 : List (String × JSVal))
    (h : jsonStringifyRecord p1 = jsonStringifyRecord p2) :
    generateCacheKey url (some p1) = generateCacheKey url (some p2) := by
  simp [generateCacheKey, h]

/-- Closed witness for c2_generateCacheKey_deterministic at a concrete
record. -/
theorem c2_generateCacheKey_deterministic_witness :
    generateCacheKey "/api/apartments"
        (some [("page", JSVal.str "1"), ("limit", JSVal.str "20")]) =
      generateCacheKey "/api/apartments"
        (some [("page", JSVal.str "1"), ("limit", JSVal.str "20")]) :=
  c2_generateCacheKey_deterministic "/api/apartments" _ _ rfl

/-- adoptSavedRange either keeps the metadata default or adopts the saved
value unchanged, and (for well-formed bounds) its result always lies
within the bounds and is non-inverted. -/
theorem adoptSavedRange_within (bounds : Rat × Rat)
    (saved : Option (Rat × Rat)) (h : bounds.1 ≤ bounds.2) :
    (adoptSavedRange bounds saved = bounds ∨
      saved = some (adoptSavedRange bounds saved)) ∧
    bounds.1 ≤ (adoptSavedRange bounds saved).1 ∧
    (adoptSavedRange bounds saved).1 ≤ (adoptSavedRange bounds saved).2 ∧
    (adoptSavedRange bounds saved).2 ≤ bounds.2 := by
  cases saved with
  | none => simp [adoptSavedRange, h]
  | some range =>
    by_cases hc : bounds.1 ≤ range.1 ∧ range.2 ≤ bounds.2 ∧ range.1 ≤ range.2
    · simp only [adoptSavedRange, if_pos hc]
      exact ⟨Or.inr trivial, hc.1, hc.2.2, hc.2.1⟩
    · simp only [adoptSavedRange, if_neg hc]
      exact ⟨Or.inl trivial, le_refl _, h, le_refl _⟩

/-- The metadata used by the C3 counterexample. -/
def c3Metadata : FilterMetadata :=
  { priceRange := (100, 200)
    areaRange := (1, 1000)
    roomsAvailable := [1, 2, 3]
    floorsRange := (1, 50) }

/-- The saved filters used by the C3 counterexample: the price lower bound
is below the metadata minimum, the upper bound is in range. -/
def c3Saved : PartialFilters := { priceRange := some (50, 150) }

/-- C3 counterexample: the sanitization path does not clamp out-of-range
numeric bounds.  For a saved price range (50, 150) against metadata bounds
(100, 200), per-bound clamping (the claim, rendered by
clampSavedFiltersSpec) would give (100, 150); validateSavedFilters instead
discards the range wholesale and returns the full default (100, 200). -/
theorem c3_sanitize_does_not_clamp :
    validateSavedFilters c3Saved c3Metadata ≠
      clampSavedFiltersSpec c3Saved c3Metadata ∧
    (validateSavedFilters c3Saved c3Metadata).priceRange = (100, 200) ∧
    (clampSavedFiltersSpec c3Saved c3Metadata).priceRange = (100, 150) := by
  refine ⟨?_, by decide, by decide⟩
  decide

/-- C3 amended: for saved/URL-originated input against well-formed
metadata, validateSavedFilters adopts each saved numeric range unchanged
when it lies within the metadata bounds and is non-inverted and otherwise
falls back to the full metadata default range (it never clamps a single
bound); room values absent from roomsAvailable are silently dropped; the
result always lies within the metadata bounds and no error is produced. -/
theorem c3_validateSavedFilters_sanitizes (saved : PartialFilters)
    (metadata : FilterMetadata)
    (hp : metadata.priceRange.1 ≤ metadata.priceRange.2)
    (ha : metadata.areaRange.1 ≤ metadata.areaRange.2)
    (hf : metadata.floorsRange.1 ≤ metadata.floorsRange.2) :
    ((validateSavedFilters saved metadata).priceRange = metadata.priceRange ∨
      saved.priceRange = some (validateSavedFilters saved metadata).priceRange) ∧
    metadata.priceRange.1 ≤ (validateSavedFilters saved metadata).priceRange.1 ∧
    (validateSavedFilters saved metadata).priceRange.1 ≤
      (validateSavedFilters saved metadata).priceRange.2 ∧
    (validateSavedFilters saved metadata).priceRange.2 ≤ metadata.priceRange.2 ∧
    ((validateSavedFilters saved metadata).areaRange = metadata.areaRange ∨
      saved.areaRange = some (validateSavedFilters saved metadata).areaRange) ∧
    metadata.areaRange.1 ≤ (validateSavedFilters saved metadata).areaRange.1 ∧
    (validateSavedFilters saved metadata).areaRange.1 ≤
      (validateSavedFilters saved metadata).areaRange.2 ∧
    (validateSavedFilters saved metadata).areaRange.2 ≤ metadata.areaRange.2 ∧
    ((validateSavedFilters saved metadata).floors = metadata.floorsRange ∨
      saved.floors = some (validateSavedFilters saved metadata).floors) ∧
    metadata.floorsRange.1 ≤ (validateSavedFilters saved metadata).floors.1 ∧
    (validateSavedFilters saved metadata).floors.1 ≤
      (validateSavedFilters saved metadata).floors.2 ∧
    (validateSavedFilters saved metadata).floors.2 ≤ metadata.floorsRange.2 ∧
    (∀ room ∈ (validateSavedFilters saved metadata).rooms,
      room ∈ metadata.roomsAvailable) := by
  obtain ⟨op1, op2, op3, op4⟩ := adoptSavedRange_within metadata.priceRange
    saved.priceRange hp
  obtain ⟨oa1, oa2, oa3, oa4⟩ := adoptSavedRange_within metadata.areaRange
    saved.areaRange ha
  obtain ⟨of1, of2, of3, of4⟩ := adoptSavedRange_within metadata.floorsRange
    saved.floors hf
  refine ⟨op1, op2, op3, op4, oa1, oa2, oa3, oa4, of1, of2, of3, of4, ?_⟩
  intro room hroom
  unfold validateSavedFilters at hroom
  dsimp at hroom
  cases hs : saved.rooms with
  | none => rw [hs] at hroom; simp at hroom
  | some rooms =>
    rw [hs] at hroom
    simp only [List.mem_filter] at hroom
    simpa using hroom.2

/-- Closed witness for c3_validateSavedFilters_sanitizes at a concrete
saved filter set mixing adopted, discarded and filtered dimensions. -/
theorem c3_validateSavedFilters_sanitizes_witness :
    (validateSavedFilters
        { priceRange := some (120, 180), areaRange := some (0, 500)
          rooms := some [2, 9], floors := some (5, 60) }
        c3Metadata).priceRange = (120, 180) ∧
    (validateSavedFilters
        { priceRange := some (120, 180), areaRange := some (0, 500)
          rooms := some [2, 9], floors := some (5, 60) }
        c3Metadata).rooms = [2] ∧
    ((validateSavedFilters
        { priceRange := some (120, 180), areaRange := some (0, 500)
          rooms := some [2, 9], floors := some (5, 60) }
        c3Metadata).areaRange = c3Metadata.areaRange ∨
      ({ priceRange := some (120, 180), areaRange := some (0, 500)
         rooms := some [2, 9], floors := some (5, 60) } :
        PartialFilters).areaRange =
        some (validateSavedFilters
          { priceRange := some (120, 180), areaRange := some (0, 500)
            rooms := some [2, 9], floors := some (5, 60) }
          c3Metadata).areaRange) := by
  refine ⟨by decide, by decide, ?_⟩
  exact (c3_validateSavedFilters_sanitizes
    { priceRange := some (120, 180), areaRange := some (0, 500)
      rooms := some [2, 9], floors := some (5, 60) }
    c3Metadata (by decide) (by decide) (by decide)).2.2.2.2.1

/-- validatePriceRange only ever assigns the error field. -/
@[simp] theorem validatePriceRange_fst_filters (s : FilterState)
    (range : Rat × Rat) : (validatePriceRange s range).1.filters = s.filters := by
  unfold validatePriceRange
  cases hm : s.metadata
  · rfl
  · dsimp
    split <;> rfl

/-- validatePriceRange preserves the metadata field. -/
@[simp] theorem validatePriceRange_fst_metadata (s : FilterState)
    (range : Rat × Rat) : (validatePriceRange s range).1.metadata = s.metadata := by
  unfold validatePriceRange
  cases hm : s.metadata
  · dsimp
    exact hm
  · dsimp
    split <;> simp [hm]

/-- validateAreaRange only ever assigns the error field. -/
@[simp] theorem validateAreaRange_fst_filters (s : FilterState)
    (range : Rat × Rat) : (validateAreaRange s range).1.filters = s.filters := by
  unfold validateAreaRange
  cases hm : s.metadata
  · rfl
  · dsimp
    split <;> rfl

/-- validateAreaRange preserves the metadata field. -/
@[simp] theorem validateAreaRange_fst_metadata (s : FilterState)
    (range : Rat × Rat) : (validateAreaRange s range).1.metadata = s.metadata := by
  unfold validateAreaRange
  cases hm : s.metadata
  · dsimp
    exact hm
  · dsimp
    split <;> simp [hm]

/-- validateRooms only ever assigns the error field. -/
@[simp] theorem validateRooms_fst_filters (s : FilterState)
    (rooms : List Rat) : (validateRooms s rooms).1.filters = s.filters := by
  unfold validateRooms
  cases hm : s.metadata
  · rfl
  · dsimp
    split <;> rfl

/-- validateRooms preserves the metadata field. -/
@[simp] theorem validateRooms_fst_metadata (s : FilterState)
    (rooms : List Rat) : (validateRooms s rooms).1.metadata = s.metadata := by
  unfold validateRooms
  cases hm : s.metadata
  · dsimp
    exact hm
  · dsimp
    split <;> simp [hm]

/-- validateFloorsRange only ever assigns the error field. -/
@[simp] theorem validateFloorsRange_fst_filters (s : FilterState)
    (range : Rat × Rat) : (validateFloorsRange s range).1.filters = s.filters := by
  unfold validateFloorsRange
  cases hm : s.metadata
  · rfl
  · dsimp
    split <;> rfl

/-- validateFloorsRange preserves the metadata field. -/
@[simp] theorem validateFloorsRange_fst_metadata (s : FilterState)
    (range : Rat × Rat) : (validateFloorsRange s range).1.metadata = s.metadata := by
  unfold validateFloorsRange
  cases hm : s.metadata
  · dsimp
    exact hm
  · dsimp
    split <;> simp [hm]

/-- validatePriceRange's verdict: false without metadata, else the
negation of the shared range-violation condition against the price
bounds. -/
theorem validatePriceRange_snd (s : FilterState) (range : Rat × Rat) :
    (validatePriceRange s range).2 =
      (match s.metadata with
       | none => false
       | some metadata => !rangeViolates metadata.priceRange range) := by
  unfold validatePriceRange
  cases hm : s.metadata
  · rfl
  case some metadata =>
    dsimp
    cases hc : rangeViolates metadata.priceRange range <;> simp [hc]

/-- validateAreaRange's verdict: false without metadata, else the
negation of the violation condition against the area bounds. -/
theorem validateAreaRange_snd (s : FilterState) (range : Rat × Rat) :
    (validateAreaRange s range).2 =
      (match s.metadata with
       | none => false
       | some metadata => !rangeViolates metadata.areaRange range) := by
  unfold validateAreaRange
  cases hm : s.metadata
  · rfl
  case some metadata =>
    dsimp
    cases hc : rangeViolates metadata.areaRange range <;> simp [hc]

/-- validateRooms' verdict: false without metadata, else emptiness of the
invalid-rooms list. -/
theorem validateRooms_snd (s : FilterState) (rooms : List Rat) :
    (validateRooms s rooms).2 =
      (match s.metadata with
       | none => false
       | some metadata =>
         (invalidRoomsOf metadata.roomsAvailable rooms).length == 0) := by
  unfold validateRooms
  cases hm : s.metadata
  · rfl
  case some metadata =>
    dsimp
    by_cases hc : (invalidRoomsOf metadata.roomsAvailable rooms).length > 0
    · rw [if_pos hc]
      have hne : (invalidRoomsOf metadata.roomsAvailable rooms).length ≠ 0 := by
        omega
      simp [hne]
    · rw [if_neg hc]
      have heq : (invalidRoomsOf metadata.roomsAvailable rooms).length = 0 := by
        omega
      simp [heq]

/-- validateFloorsRange's verdict: false without metadata, else the
negation of the violation condition against the floors bounds. -/
theorem validateFloorsRange_snd (s : FilterState) (range : Rat × Rat) :
    (validateFloorsRange s range).2 =
      (match s.metadata with
       | none => false
       | some metadata => !rangeViolates metadata.floorsRange range) := by
  unfold validateFloorsRange
  cases hm : s.metadata
  · rfl
  case some metadata =>
    dsimp
    cases hc : rangeViolates metadata.floorsRange range <;> simp [hc]

/-- C4 amended: validateAllFilters checks price, area, rooms and floors
independently, each dimension contributing one fixed, per-dimension error
code when its single combined check (lower bound below minimum OR upper
bound above maximum OR inverted range — one shared code per dimension, not
one per condition) fails; consequently, when exactly the price (resp.
area, floors) range is inverted and every other dimension passes, the
result carries that dimension's code and no other. -/
theorem c4_validateAllFilters_per_dimension (s : FilterState)
    (metadata : FilterMetadata) (h : s.metadata = some metadata) :
    ((validateAllFilters s).2.errors.map (fun e => e.code) =
      (if rangeViolates metadata.priceRange s.filters.priceRange
        then ["INVALID_PRICE_RANGE"] else []) ++
      (if rangeViolates metadata.areaRange s.filters.areaRange
        then ["INVALID_AREA_RANGE"] else []) ++
      (if (invalidRoomsOf metadata.roomsAvailable s.filters.rooms).length > 0
        then ["INVALID_ROOMS"] else []) ++
      (if rangeViolates metadata.floorsRange s.filters.floors
        then ["INVALID_FLOORS_RANGE"] else [])) ∧
    (s.filters.priceRange.1 > s.filters.priceRange.2 →
      rangeViolates metadata.areaRange s.filters.areaRange = false →
      invalidRoomsOf metadata.roomsAvailable s.filters.rooms = [] →
      rangeViolates metadata.floorsRange s.filters.floors = false →
      (validateAllFilters s).2.errors.map (fun e => e.code) =
        ["INVALID_PRICE_RANGE"]) ∧
    (s.filters.areaRange.1 > s.filters.areaRange.2 →
      rangeViolates metadata.priceRange s.filters.priceRange = false →
      invalidRoomsOf metadata.roomsAvailable s.filters.rooms = [] →
      rangeViolates metadata.floorsRange s.filters.floors = false →
      (validateAllFilters s).2.errors.map (fun e => e.code) =
        ["INVALID_AREA_RANGE"]) ∧
    (s.filters.floors.1 > s.filters.floors.2 →
      rangeViolates metadata.priceRange s.filters.priceRange = false →
      rangeViolates metadata.areaRange s.filters.areaRange = false →
      invalidRoomsOf metadata.roomsAvailable s.filters.rooms = [] →
      (validateAllFilters s).2.errors.map (fun e => e.code) =
        ["INVALID_FLOORS_RANGE"]) := by
  have hchar : (validateAllFilters s).2.errors.map (fun e => e.code) =
      (if rangeViolates metadata.priceRange s.filters.priceRange
        then ["INVALID_PRICE_RANGE"] else []) ++
      (if rangeViolates metadata.areaRange s.filters.areaRange
        then ["INVALID_AREA_RANGE"] else []) ++
      (if (invalidRoomsOf metadata.roomsAvailable s.filters.rooms).length > 0
        then ["INVALID_ROOMS"] else []) ++
      (if rangeViolates metadata.floorsRange s.filters.floors
        then ["INVALID_FLOORS_RANGE"] else []) := by
    unfold validateAllFilters
    simp only [validatePriceRange_fst_filters, validatePriceRange_fst_metadata,
      validateAreaRange_fst_filters, validateAreaRange_fst_metadata,
      validateRooms_fst_filters, validateRooms_fst_metadata,
      validateFloorsRange_fst_filters, validateFloorsRange_fst_metadata,
      validatePriceRange_snd, validateAreaRange_snd, validateRooms_snd,
      validateFloorsRange_snd, h]
    cases hp : rangeViolates metadata.priceRange s.filters.priceRange <;>
    cases ha : rangeViolates metadata.areaRange s.filters.areaRange <;>
    cases hf : rangeViolates metadata.floorsRange s.filters.floors <;>
    by_cases hr : invalidRoomsOf metadata.roomsAvailable s.filters.rooms = [] <;>
      simp [hp, ha, hf, hr, List.length_pos, List.length_eq_zero]
  refine ⟨hchar, ?_, ?_, ?_⟩
  · intro hinv ha hr hf
    have hp : rangeViolates metadata.priceRange s.filters.priceRange = true := by
      simp only [rangeViolates, Bool.or_eq_true, decide_eq_true_eq]
      exact Or.inr hinv
    rw [hchar, hp, ha, hf, hr]
    simp
  · intro hinv hp hr hf
    have ha : rangeViolates metadata.areaRange s.filters.areaRange = true := by
      simp only [rangeViolates, Bool.or_eq_true, decide_eq_true_eq]
      exact Or.inr hinv
    rw [hchar, hp, ha, hf, hr]
    simp
  · intro hinv hp ha hr
    have hf : rangeViolates metadata.floorsRange s.filters.floors = true := by
      simp only [rangeViolates, Bool.or_eq_true, decide_eq_true_eq]
      exact Or.inr hinv
    rw [hchar, hp, ha, hf, hr]
    simp

/-- Metadata for the C4 instances. -/
def c4Metadata : FilterMetadata :=
  { priceRange := (100, 200)
    areaRange := (1, 1000)
    roomsAvailable := [1, 2, 3]
    floorsRange := (1, 50) }

/-- C4 instance: price lower bound below the rule minimum, range not
inverted; every other dimension at its default. -/
def c4StateBelowMin : FilterState :=
  { filters := { priceRange := (50, 150), areaRange := (1, 1000)
                 rooms := [], floors := (1, 50) }
    metadata := some c4Metadata
    loading := false, error := none, isActive := false }

/-- C4 instance: price range inverted (min > max) within the bounds;
every other dimension at its default. -/
def c4StateInverted : FilterState :=
  { filters := { priceRange := (180, 120), areaRange := (1, 1000)
                 rooms := [], floors := (1, 50) }
    metadata := some c4Metadata
    loading := false, error := none, isActive := false }

/-- C4 counterexample: two different failure conditions of the price
dimension — lower bound below the rule minimum (range not inverted) and
inverted range — produce the same error code INVALID_PRICE_RANGE, so the
three conditions do not each carry a distinct code. -/
theorem c4_conditions_share_one_code :
    (validateAllFilters c4StateBelowMin).2.errors.map (fun e => e.code) =
      ["INVALID_PRICE_RANGE"] ∧
    (validateAllFilters c4StateInverted).2.errors.map (fun e => e.code) =
      ["INVALID_PRICE_RANGE"] ∧
    c4StateBelowMin.filters.priceRange.1 < c4Metadata.priceRange.1 ∧
    c4StateBelowMin.filters.priceRange.1 ≤ c4StateBelowMin.filters.priceRange.2 ∧
    c4StateInverted.filters.priceRange.2 < c4StateInverted.filters.priceRange.1 := by
  refine ⟨by decide, by decide, by decide, by decide, by decide⟩

/-- Closed witness for c4_validateAllFilters_per_dimension: an inverted
price range with all other dimensions valid yields exactly the price
dimension's code. -/
theorem c4_validateAllFilters_per_dimension_witness :
    (validateAllFilters c4StateInverted).2.errors.map (fun e => e.code) =
      ["INVALID_PRICE_RANGE"] :=
  (c4_validateAllFilters_per_dimension c4StateInverted c4Metadata rfl).2.1
    (by decide) (by decide) (by decide) (by decide)

/-- The store used by the C8 instance: metadata present with
roomsAvailable = [1, 2, 3] and no room selected. -/
def c8State : FilterState :=
  { filters := { priceRange := (100, 200), areaRange := (1, 1000)
                 rooms := [], floors := (1, 50) }
    metadata := some c4Metadata
    loading := false, error := none, isActive := false }

/-- C8 counterexample: toggleRoom does not follow updateRooms' validation
discipline.  With roomsAvailable = [1, 2, 3], updateRooms rejects [99]
(persisting nothing), yet toggleRoom 99 accepts the mutation, stores
rooms = [99] — a value absent from roomsAvailable — and persists it. -/
theorem c8_toggleRoom_skips_validation :
    (updateRooms c8State [99]).2 = false ∧
    (updateRooms c8State [99]).1.filters.rooms = [] ∧
    (toggleRoom c8State 99).2 = true ∧
    (toggleRoom c8State 99).1.filters.rooms = [99] ∧
    ¬ (99 : Rat) ∈ c4Metadata.roomsAvailable := by
  refine ⟨by decide, by decide, by decide, by decide, by decide⟩

/-- C8 amended: toggleRoom performs no validation at all (it never
consults metadata.roomsAvailable, unlike updateRooms): for every room
count the toggle is accepted and persisted, the count's multiplicity
increases by one when it was absent and decreases by one when present
(first occurrence removed), every other value's multiplicity is untouched,
the resulting rooms list is always sorted ascending, and the error field
is left unchanged. -/
theorem c8_toggleRoom_no_validation (s : FilterState) (roomCount : Rat) :
    (toggleRoom s roomCount).2 = true ∧
    (toggleRoom s roomCount).1.error = s.error ∧
    (toggleRoom s roomCount).1.metadata = s.metadata ∧
    List.Sorted (· ≤ ·) (toggleRoom s roomCount).1.filters.rooms ∧
    (toggleRoom s roomCount).1.filters.rooms.count roomCount =
      (if roomCount ∈ s.filters.rooms then
        s.filters.rooms.count roomCount - 1
      else
        s.filters.rooms.count roomCount + 1) ∧
    (∀ x, x ≠ roomCount →
      (toggleRoom s roomCount).1.filters.rooms.count x =
        s.filters.rooms.count x) := by
  refine ⟨rfl, rfl, rfl, List.sorted_insertionSort _ _, ?_, ?_⟩
  · have hperm := List.perm_insertionSort (· ≤ ·)
      (if s.filters.rooms.contains roomCount then
        s.filters.rooms.erase roomCount
      else s.filters.rooms ++ [roomCount])
    cases hc : s.filters.rooms.contains roomCount
    · have hmem : roomCount ∉ s.filters.rooms := by simpa using hc
      rw [if_neg hmem]
      rw [hc] at hperm
      simp only [Bool.false_eq_true, if_neg] at hperm
      calc (toggleRoom s roomCount).1.filters.rooms.count roomCount
          = (s.filters.rooms ++ [roomCount]).count roomCount := by
            simpa [toggleRoom, hc, hmem] using hperm.count_eq roomCount
        _ = s.filters.rooms.count roomCount + 1 := by
            simp [List.count_append]
    · have hmem : roomCount ∈ s.filters.rooms := by simpa using hc
      rw [if_pos hmem]
      rw [hc] at hperm
      simp only [if_pos] at hperm
      calc (toggleRoom s roomCount).1.filters.rooms.count roomCount
          = (s.filters.rooms.erase roomCount).count roomCount := by
            simpa [toggleRoom, hc, hmem] using hperm.count_eq roomCount
        _ = s.filters.rooms.count roomCount - 1 := by
            simp [List.count_erase_self]
  · intro x hx
    have hperm := List.perm_insertionSort (· ≤ ·)
      (if s.filters.rooms.contains roomCount then
        s.filters.rooms.erase roomCount
      else s.filters.rooms ++ [roomCount])
    cases hc : s.filters.rooms.contains roomCount
    · have hmem : roomCount ∉ s.filters.rooms := by simpa using hc
      rw [hc] at hperm
      simp only [Bool.false_eq_true, if_neg] at hperm
      calc (toggleRoom s roomCount).1.filters.rooms.count x
          = (s.filters.rooms ++ [roomCount]).count x := by
            simpa [toggleRoom, hc, hmem] using hperm.count_eq x
        _ = s.filters.rooms.count x := by
            simp [List.count_append, List.count_singleton, hx]
    · have hmem : roomCount ∈ s.filters.rooms := by simpa using hc
      rw [hc] at hperm
      simp only [if_pos] at hperm
      calc (toggleRoom s roomCount).1.filters.rooms.count x
          = (s.filters.rooms.erase roomCount).count x := by
            simpa [toggleRoom, hc, hmem] using hperm.count_eq x
        _ = s.filters.rooms.count x := by
            rw [List.count_erase_of_ne hx]

/-- The positivity filter parseFiltersFromUrl applies to the rooms values
is the identity on a list of positive values. -/
theorem rooms_filter_pos_eq_self (l : List Rat) (hpos : ∀ r ∈ l, 0 < r) :
    l.filter (fun r => 0 < r) = l :=
  List.filter_eq_self.mpr (by simpa using hpos)

/-- The per-bound inequality test updateUrlWithFilters performs on a range
pair is the inequality of the pairs. -/
theorem pair_differs_bool (x y : Rat × Rat) :
    (x.1 != y.1 || x.2 != y.2) = decide (x ≠ y) := by
  rcases x with ⟨a, b⟩
  rcases y with ⟨c, d⟩
  by_cases h1 : a = c <;> by_cases h2 : b = d <;> simp [h1, h2, Prod.ext_iff]

/-- Fieldwise value of the query updateUrlWithFilters builds: a min/max
pair exactly when the range differs from its default, the rooms values
exactly when rooms is non-empty. -/
theorem updateUrlWithFilters_eq (filters defaultFilters : FilterParams) :
    updateUrlWithFilters filters defaultFilters =
      { priceMin :=
          if filters.priceRange = defaultFilters.priceRange then none
          else some filters.priceRange.1
        priceMax :=
          if filters.priceRange = defaultFilters.priceRange then none
          else some filters.priceRange.2
        areaMin :=
          if filters.areaRange = defaultFilters.areaRange then none
          else some filters.areaRange.1
        areaMax :=
          if filters.areaRange = defaultFilters.areaRange then none
          else some filters.areaRange.2
        rooms := filters.rooms
        floorMin :=
          if filters.floors = defaultFilters.floors then none
          else some filters.floors.1
        floorMax :=
          if filters.floors = defaultFilters.floors then none
          else some filters.floors.2 } := by
  unfold updateUrlWithFilters
  simp only [pair_differs_bool]
  by_cases hpd : filters.priceRange = defaultFilters.priceRange <;>
  by_cases had : filters.areaRange = defaultFilters.areaRange <;>
  by_cases hrd : filters.rooms = [] <;>
  by_cases hfd : filters.floors = defaultFilters.floors <;>
    simp [hpd, had, hrd, hfd, List.length_pos]

/-- The metadata of the C7 counterexample instance. -/
def c7Metadata : FilterMetadata :=
  { priceRange := (0, 100000000)
    areaRange := (1, 100)
    roomsAvailable := [1, 2, 3]
    floorsRange := (1, 10) }

/-- The C7 counterexample filter set: fully within c7Metadata's bounds,
rooms selected in the order [3, 2]. -/
def c7Filters : FilterParams :=
  { priceRange := (0, 100000000), areaRange := (1, 100)
    rooms := [3, 2], floors := (1, 10) }

/-- The metadata-derived defaults for the C7 counterexample. -/
def c7Defaults : FilterParams :=
  { priceRange := (0, 100000000), areaRange := (1, 100)
    rooms := [], floors := (1, 10) }

/-- C7 counterexample: for a filter set fully within metadata bounds whose
rooms were selected in the order [3, 2], the round trip returns rooms
[2, 3] — parseFiltersFromUrl sorts the values ascending — so the
non-default rooms dimension is not recovered with its original value; the
round trip is lossy on rooms order, not only on default-valued
dimensions. -/
theorem c7_rooms_order_lost :
    parseFiltersFromUrl (updateUrlWithFilters c7Filters c7Defaults) =
      some { priceRange := none, areaRange := none
             rooms := some [2, 3], floors := none } ∧
    c7Filters.rooms = [3, 2] ∧
    ([2, 3] : List Rat) ≠ [3, 2] ∧
    (∀ r ∈ c7Filters.rooms, r ∈ c7Metadata.roomsAvailable) ∧
    c7Filters.priceRange = c7Metadata.priceRange ∧
    c7Filters.areaRange = c7Metadata.areaRange ∧
    c7Filters.floors = c7Metadata.floorsRange := by
  refine ⟨by decide, by decide, by decide, by decide, by decide, by decide,
    by decide⟩

/-- C7 amended: parsing the query produced by updateUrlWithFilters
recovers exactly the dimensions of the filters that differ from the
defaults (rooms whenever non-empty) and recovers no dimension whose value
equals its default; each recovered range carries its original value, while
the recovered rooms value is the ascending sort of the original rooms —
the round trip loses the selection order (and is the identity on rooms
already sorted ascending).  When nothing differs the parse yields null.
The hypotheses are the properties a FilterParams within metadata bounds
has: each range non-inverted and rooms positive (values from
roomsAvailable). -/
theorem c7_url_round_trip (filters defaultFilters : FilterParams)
    (hp : filters.priceRange.1 ≤ filters.priceRange.2)
    (ha : filters.areaRange.1 ≤ filters.areaRange.2)
    (hf : filters.floors.1 ≤ filters.floors.2)
    (hrpos : ∀ r ∈ filters.rooms, 0 < r) :
    parseFiltersFromUrl (updateUrlWithFilters filters defaultFilters) =
      (if filters.priceRange = defaultFilters.priceRange ∧
          filters.areaRange = defaultFilters.areaRange ∧
          filters.rooms = [] ∧ filters.floors = defaultFilters.floors
       then none
       else some
        { priceRange :=
            if filters.priceRange = defaultFilters.priceRange then none
            else some filters.priceRange
          areaRange :=
            if filters.areaRange = defaultFilters.areaRange then none
            else some filters.areaRange
          rooms :=
            if filters.rooms = [] then none
            else some (filters.rooms.insertionSort (· ≤ ·))
          floors :=
            if filters.floors = defaultFilters.floors then none
            else some filters.floors }) := by
  have hfilter := rooms_filter_pos_eq_self filters.rooms hrpos
  rw [updateUrlWithFilters_eq]
  by_cases hpd : filters.priceRange = defaultFilters.priceRange <;>
  by_cases had : filters.areaRange = defaultFilters.areaRange <;>
  by_cases hrd : filters.rooms = [] <;>
  by_cases hfd : filters.floors = defaultFilters.floors <;>
    simp [parseFiltersFromUrl, UrlQuery.noKeys, PartialFilters.hasKeys,
      hpd, had, hrd, hfd, hp, ha, hf, hfilter, List.length_pos,
      List.length_insertionSort]

/-- Closed witness for c7_url_round_trip: a filter set differing from the
defaults in price and rooms only round-trips to exactly those two
dimensions. -/
theorem c7_url_round_trip_witness :
    parseFiltersFromUrl (updateUrlWithFilters
      { priceRange := (5000000, 10000000), areaRange := (1, 100)
        rooms := [2, 3], floors := (1, 10) }
      { priceRange := (0, 100000000), areaRange := (1, 100)
        rooms := [], floors := (1, 10) }) =
      some { priceRange := some (5000000, 10000000), areaRange := none
             rooms := some [2, 3], floors := none } := by
  have h := c7_url_round_trip
    { priceRange := (5000000, 10000000), areaRange := (1, 100)
      rooms := [2, 3], floors := (1, 10) }
    { priceRange := (0, 100000000), areaRange := (1, 100)
      rooms := [], floors := (1, 10) }
    (by decide) (by decide) (by decide) (by decide)
  rw [h]
  decide

end AptListing
